import Mathlib

/-!
Shallow embedding of the "if-you-bought" investment-backtest service.

The repository contains two coexisting variants of the program:
`main.go` (embedded below under namespace `MainGo`) and an unnamed second
variant (embedded under namespace `PartOne`).  Both are transcribed from
the Go source.  Conventions: `float64` is modelled as `ℚ`; the external
HTTP collaborators (Alpha Vantage close prices, Frankfurter FX rates) are
modelled as oracles in a `Collab` record; every handler additionally
returns the chronological list of collaborator fetches it attempted, so
that "rejected before any fetch" properties are statable.  `gin.H` JSON
bodies are modelled as association lists in source field order.
-/

namespace IfYouBought

/-- ASCII digit test, as in the character class `[0-9]` of the Go regexes. -/
def isDigitChar (c : Char) : Bool := 48 ≤ c.toNat && c.toNat ≤ 57

/-- ASCII uppercase test, as in the character class `[A-Z]`. -/
def isUpperAZ (c : Char) : Bool := 65 ≤ c.toNat && c.toNat ≤ 90

/-- Membership in the Unicode `Sc` (currency symbol) category, as matched by
`\p{Sc}` in the Go regex `([\p{Sc}]|[A-Z]{3})`; the code-point ranges of the
Unicode category. -/
def isCurrencySymbol (c : Char) : Bool :=
  let n := c.toNat
  n == 0x24 || (0xA2 ≤ n && n ≤ 0xA5) || n == 0x58F || n == 0x60B ||
  (0x7FE ≤ n && n ≤ 0x7FF) || (0x9F2 ≤ n && n ≤ 0x9F3) || n == 0x9FB ||
  n == 0xAF1 || n == 0xBF9 || n == 0xE3F || n == 0x17DB ||
  (0x20A0 ≤ n && n ≤ 0x20C0) || n == 0xA838 || n == 0xFDFC || n == 0xFE69 ||
  n == 0xFF04 || (0xFFE0 ≤ n && n ≤ 0xFFE1) || (0xFFE5 ≤ n && n ≤ 0xFFE6) ||
  (0x11FDD ≤ n && n ≤ 0x11FE0) || n == 0x1E2FF || n == 0x1ECB0

/-- Maximal digit run at the front of a rune list, returning it and the rest;
the greedy behaviour of `[0-9]*` and `[0-9]+`. -/
def digitRun : List Char → List Char × List Char
  | [] => ([], [])
  | c :: rest =>
    if isDigitChar c then
      let dr := digitRun rest
      (c :: dr.1, dr.2)
    else ([], c :: rest)

/-- The match of the unsigned body `[0-9]*\.?[0-9]+` of the Go numeric regex
at a fixed start position, under leftmost-first (backtracking) semantics:
a digit run, optionally extended by a decimal point with at least one digit
after it; or a bare `.digits`.  `none` when the body cannot match here. -/
def numBodyAt (l : List Char) : Option (List Char) :=
  match l with
  | [] => none
  | c :: rest =>
    if isDigitChar c then
      let dr := digitRun (c :: rest)
      match dr.2 with
      | '.' :: r3 =>
        match r3 with
        | c2 :: _ =>
          if isDigitChar c2 then some (dr.1 ++ '.' :: (digitRun r3).1)
          else some dr.1
        | [] => some dr.1
      | _ => some dr.1
    else if c == '.' then
      match rest with
      | c2 :: _ => if isDigitChar c2 then some ('.' :: (digitRun rest).1) else none
      | [] => none
    else none

/-- The match of `[-+]?[0-9]*\.?[0-9]+` at a fixed start position. -/
def numAt (l : List Char) : Option (List Char) :=
  match l with
  | [] => none
  | c :: rest =>
    if c == '-' || c == '+' then (numBodyAt rest).map (fun m => c :: m)
    else numBodyAt (c :: rest)

/-- `regexp.FindString` for the numeric regex: the match at the leftmost
start position admitting one, `none` if the whole string has no match. -/
def findNumList : List Char → Option (List Char)
  | [] => none
  | c :: rest =>
    match numAt (c :: rest) with
    | some m => some m
    | none => findNumList rest

/-- The match of `([\p{Sc}]|[A-Z]{3})` at a fixed start position: a single
currency-symbol rune, or else a run of three ASCII uppercase letters. -/
def currencyAt (l : List Char) : Option (List Char) :=
  match l with
  | [] => none
  | c :: rest =>
    if isCurrencySymbol c then some [c]
    else
      match rest with
      | c2 :: c3 :: _ =>
        if isUpperAZ c && isUpperAZ c2 && isUpperAZ c3 then some [c, c2, c3]
        else none
      | _ => none

/-- `regexp.FindString` for the currency regex: leftmost match. -/
def findCurrencyList : List Char → Option (List Char)
  | [] => none
  | c :: rest =>
    match currencyAt (c :: rest) with
    | some m => some m
    | none => findCurrencyList rest

/-- The currency token extracted from the raw amount string; `""` when the
regex has no match, as `FindString` returns the empty string then. -/
def findCurrency (s : String) : String :=
  match findCurrencyList s.data with
  | some m => String.mk m
  | none => ""

/-- Value of a digit run as a natural number. -/
def digitsVal (l : List Char) : ℕ :=
  l.foldl (fun a c => 10 * a + (c.toNat - 48)) 0

/-- `strconv.ParseFloat` on an unsigned match of the numeric regex
(`digits`, `digits.digits` or `.digits`), as an exact rational. -/
def parseUnsigned (l : List Char) : ℚ :=
  let dr := digitRun l
  match dr.2 with
  | '.' :: fr =>
    (digitsVal dr.1 : ℚ) + (digitsVal (digitRun fr).1 : ℚ) / (10 ^ (digitRun fr).1.length : ℚ)
  | _ => (digitsVal dr.1 : ℚ)

/-- `strconv.ParseFloat` on a (possibly signed) match of the numeric regex. -/
def parseNumToken (l : List Char) : ℚ :=
  match l with
  | '-' :: r => -(parseUnsigned r)
  | '+' :: r => parseUnsigned r
  | _ => parseUnsigned l

/-- The result of a Go call returning `(T, error)`: either a value or an
error string. -/
inductive Res (α : Type) where
  | ok (a : α)
  | err (e : String)
deriving DecidableEq

/-- A fetch against an external collaborator, recorded in the order the
handler attempts it: a close-price lookup, an FX-rate lookup, or a
dividend-schedule lookup. -/
inductive Fetch where
  | price (ticker date : String)
  | fx (src dst date : String)
  | div (ticker startDate endDate : String)
deriving DecidableEq

/-- The external collaborators: `fetchStockDailyCloseAlphaVantage` and
`getHistoricalFXRate`, abstracted as oracles over their inputs. -/
structure Collab where
  price : String → String → Res ℚ
  fx : String → String → String → Res ℚ

/-- The `dividendData` struct: ex-date (as its `YYYY-MM-DD` string) and
per-share (or, in reinvestment logs, cash) amount. -/
structure dividendData where
  date : String
  amount : ℚ
deriving DecidableEq

/-- A JSON value as used in the handlers' `gin.H` bodies. -/
inductive JVal where
  | num (q : ℚ)
  | str (s : String)
  | bool (b : Bool)
  | divs (l : List dividendData)
deriving DecidableEq

/-- A `gin.H` body, as an association list in source field order. -/
abbrev JObj := List (String × JVal)

/-- A handler outcome: HTTP 200 with a body, HTTP 400 (client error), or
HTTP 500 (upstream error). -/
inductive HResult where
  | ok (body : JObj)
  | clientError (body : JObj)
  | serverError (body : JObj)
deriving DecidableEq

/-- Whether the handler answered HTTP 200. -/
def HResult.isOk : HResult → Bool
  | .ok _ => true
  | _ => false

/-- Whether the handler answered HTTP 400. -/
def HResult.isClientError : HResult → Bool
  | .clientError _ => true
  | _ => false

/-- The JSON body of a handler outcome. -/
def HResult.body : HResult → JObj
  | .ok b => b
  | .clientError b => b
  | .serverError b => b

/-- How Go's `%v` renders an error slot in a combined detail string. -/
def errText : Res ℚ → String
  | .ok _ => "<nil>"
  | .err e => e

/-- Gregorian leap-year rule, as applied by Go's `time` package. -/
def isLeapYear (y : ℕ) : Bool := y % 4 == 0 && (y % 100 != 0 || y % 400 == 0)

/-- Days in a month, as validated by Go's `time.Parse`. -/
def daysInMonth (y m : ℕ) : ℕ :=
  if m == 2 then (if isLeapYear y then 29 else 28)
  else if m == 4 || m == 6 || m == 9 || m == 11 then 30
  else 31

/-- `time.Parse("2006-01-02", s)`: exactly `YYYY-MM-DD` with a calendar
validity check.  The parsed instant is encoded as the natural number
`y * 10000 + m * 100 + d`; since `m ≤ 12` and `d ≤ 31`, this encoding is
order-isomorphic to the chronological order of the UTC-midnight instants
Go compares with `After`/`Before`/`Equal`. -/
def parseDate (s : String) : Option ℕ :=
  match s.data with
  | [y1, y2, y3, y4, h1, m1, m2, h2, d1, d2] =>
    if isDigitChar y1 && isDigitChar y2 && isDigitChar y3 && isDigitChar y4 &&
       h1 == '-' && isDigitChar m1 && isDigitChar m2 && h2 == '-' &&
       isDigitChar d1 && isDigitChar d2 then
      let y := digitsVal [y1, y2, y3, y4]
      let m := digitsVal [m1, m2]
      let d := digitsVal [d1, d2]
      if 1 ≤ m && m ≤ 12 && 1 ≤ d && d ≤ daysInMonth y m then
        some (y * 10000 + m * 100 + d)
      else none
    else none
  | _ => none

/-- The four hard-coded simulated quarterly dividend dates for AAPL. -/
def dividendDates : List String :=
  ["2025-03-15", "2025-06-15", "2025-09-15", "2025-12-15"]

/-- One iteration of the dividend-simulation loop: a candidate date that
fails to parse is skipped (`continue`), one inside `[start, endD]`
inclusive is appended with per-share amount `0.24`. -/
def divStep (start endD : ℕ) (acc : List dividendData) (divDate : String) : List dividendData :=
  match parseDate divDate with
  | none => acc
  | some divTime =>
    if start ≤ divTime ∧ divTime ≤ endD then acc ++ [⟨divDate, 6 / 25⟩] else acc

/-- `fetchStockDividendsAlphaVantage` of the second variant: the schedule
is simulated locally, not fetched.  Both range endpoints must parse; for
`"AAPL"` the four fixed dates are filtered into the inclusive range with
amount `0.24`; every other ticker gets an empty schedule. -/
def fetchStockDividendsAlphaVantage (ticker startDate endDate : String) : Res (List dividendData) :=
  match parseDate startDate with
  | none => .err "cannot parse start date"
  | some start =>
    match parseDate endDate with
    | none => .err "cannot parse end date"
    | some endD =>
      if ticker = "AAPL" then .ok (dividendDates.foldl (divStep start endD) [])
      else .ok []

/-- The loop body of `calculateDRIP`, carried over the remaining dividend
events with the running totals.  Note the payment is `shares * amount`
with `shares` the (never-updated) function argument. -/
def dripLoop (shares stockPrice : ℚ) :
    List dividendData → ℚ → List dividendData → ℚ × List dividendData
  | [], total, log => (total, log)
  | d :: rest, total, log =>
    let dividendPayment := shares * d.amount
    let additionalShares := dividendPayment / stockPrice
    if additionalShares > 0 then
      dripLoop shares stockPrice rest (total + additionalShares)
        (log ++ [⟨d.date, dividendPayment⟩])
    else
      dripLoop shares stockPrice rest total log

/-- `calculateDRIP` of the second variant: returns the total reinvested
shares and the log of (ex-date, cash received) for events with positive
computed additional shares. -/
def calculateDRIP (shares : ℚ) (dividends : List dividendData) (stockPrice : ℚ) :
    ℚ × List dividendData :=
  dripLoop shares stockPrice dividends 0 []

namespace PartOne

/-- `parseAmount` of the second variant: returns
`(parsedAmount, currencyMatch, isValue)`.  With no numeric match it
returns `(0, "", false)`; otherwise `isValue` is exactly
`currencyMatch != ""` — the path marker is never consulted. -/
def parseAmount (amount : String) : ℚ × String × Bool :=
  let currencyMatch := findCurrency amount
  match findNumList amount.data with
  | none => (0, "", false)
  | some numMatch => (parseNumToken numMatch, currencyMatch, currencyMatch != "")

/-- `handleAmountBuy` of the second variant.  Rejects a parsed amount equal
to `0`, then an unsupported type; in value mode it always fetches the FX
rate (currency → USD) first, then the close price, and divides by the
price with no positivity check. -/
def handleAmountBuy (co : Collab) (amount ticker buyDate typeParam : String) :
    HResult × List Fetch :=
  if (parseAmount amount).1 = 0 then
    (.clientError [("error", .str "Invalid amount format")], [])
  else if typeParam ≠ "stock" ∧ typeParam ≠ "crypto" then
    (.clientError [("error", .str "Invalid type parameter: must be stock or crypto")], [])
  else if (parseAmount amount).2.2 = true then
    match co.fx (parseAmount amount).2.1 "USD" buyDate with
    | .err e =>
      (.serverError [("error", .str "Failed to fetch FX rate"), ("details", .str e)],
       [.fx (parseAmount amount).2.1 "USD" buyDate])
    | .ok fxRate =>
      match co.price ticker buyDate with
      | .err e =>
        (.serverError [("error", .str "Failed to fetch stock price"), ("details", .str e)],
         [.fx (parseAmount amount).2.1 "USD" buyDate, .price ticker buyDate])
      | .ok closePrice =>
        (.ok [("message", .str "Backtest result (value buy only)"),
              ("value", .num (parseAmount amount).1),
              ("currency", .str (parseAmount amount).2.1),
              ("ticker", .str ticker),
              ("buyDate", .str buyDate),
              ("closePrice", .num closePrice),
              ("shares", .num ((parseAmount amount).1 * fxRate / closePrice)),
              ("stockCurrency", .str "USD"),
              ("fxRate", .num fxRate),
              ("type", .str typeParam)],
         [.fx (parseAmount amount).2.1 "USD" buyDate, .price ticker buyDate])
  else
    match co.price ticker buyDate with
    | .err e =>
      (.serverError [("error", .str "Failed to fetch stock price"), ("details", .str e)],
       [.price ticker buyDate])
    | .ok closePrice =>
      (.ok [("message", .str "Backtest result (quantity buy only)"),
            ("quantity", .num (parseAmount amount).1),
            ("ticker", .str ticker),
            ("buyDate", .str buyDate),
            ("closePrice", .num closePrice),
            ("type", .str typeParam)],
       [.price ticker buyDate])

/-- `handleAmountBuySell` of the second variant.  Same validation order as
the buy-only handler; in value mode the fetch order is buy-date FX
(currency → USD), sell-date FX (USD → currency), buy price, sell price,
each aborting the request on failure. -/
def handleAmountBuySell (co : Collab) (amount ticker buyDate sellDate typeParam : String) :
    HResult × List Fetch :=
  if (parseAmount amount).1 = 0 then
    (.clientError [("error", .str "Invalid amount format")], [])
  else if typeParam ≠ "stock" ∧ typeParam ≠ "crypto" then
    (.clientError [("error", .str "Invalid type parameter: must be stock or crypto")], [])
  else if (parseAmount amount).2.2 = true then
    match co.fx (parseAmount amount).2.1 "USD" buyDate with
    | .err e =>
      (.serverError [("error", .str "Failed to fetch FX rate for buy date"), ("details", .str e)],
       [.fx (parseAmount amount).2.1 "USD" buyDate])
    | .ok fxRateBuy =>
      match co.fx "USD" (parseAmount amount).2.1 sellDate with
      | .err e =>
        (.serverError [("error", .str "Failed to fetch FX rate for sell date"), ("details", .str e)],
         [.fx (parseAmount amount).2.1 "USD" buyDate, .fx "USD" (parseAmount amount).2.1 sellDate])
      | .ok fxRateSell =>
        match co.price ticker buyDate with
        | .err e =>
          (.serverError [("error", .str "Failed to fetch buy price"), ("details", .str e)],
           [.fx (parseAmount amount).2.1 "USD" buyDate, .fx "USD" (parseAmount amount).2.1 sellDate,
            .price ticker buyDate])
        | .ok buyPrice =>
          match co.price ticker sellDate with
          | .err e =>
            (.serverError [("error", .str "Failed to fetch sell price"), ("details", .str e)],
             [.fx (parseAmount amount).2.1 "USD" buyDate, .fx "USD" (parseAmount amount).2.1 sellDate,
              .price ticker buyDate, .price ticker sellDate])
          | .ok sellPrice =>
            (.ok [("message", .str "Backtest result (value buy/sell)"),
                  ("value", .num (parseAmount amount).1),
                  ("currency", .str (parseAmount amount).2.1),
                  ("ticker", .str ticker),
                  ("buyDate", .str buyDate),
                  ("sellDate", .str sellDate),
                  ("buyPrice", .num buyPrice),
                  ("sellPrice", .num sellPrice),
                  ("shares", .num ((parseAmount amount).1 * fxRateBuy / buyPrice)),
                  ("stockCurrency", .str "USD"),
                  ("finalValueUSD", .num ((parseAmount amount).1 * fxRateBuy / buyPrice * sellPrice)),
                  ("finalValueInOriginalCurrency",
                    .num ((parseAmount amount).1 * fxRateBuy / buyPrice * sellPrice * fxRateSell)),
                  ("fxRateBuy", .num fxRateBuy),
                  ("fxRateSell", .num fxRateSell),
                  ("type", .str typeParam)],
             [.fx (parseAmount amount).2.1 "USD" buyDate, .fx "USD" (parseAmount amount).2.1 sellDate,
              .price ticker buyDate, .price ticker sellDate])
  else
    match co.price ticker buyDate with
    | .err e =>
      (.serverError [("error", .str "Failed to fetch buy price"), ("details", .str e)],
       [.price ticker buyDate])
    | .ok buyPrice =>
      match co.price ticker sellDate with
      | .err e =>
        (.serverError [("error", .str "Failed to fetch sell price"), ("details", .str e)],
         [.price ticker buyDate, .price ticker sellDate])
      | .ok sellPrice =>
        (.ok [("message", .str "Backtest result (quantity buy/sell)"),
              ("quantity", .num (parseAmount amount).1),
              ("ticker", .str ticker),
              ("buyDate", .str buyDate),
              ("sellDate", .str sellDate),
              ("buyPrice", .num buyPrice),
              ("sellPrice", .num sellPrice),
              ("finalValue", .num ((parseAmount amount).1 * sellPrice)),
              ("type", .str typeParam)],
         [.price ticker buyDate, .price ticker sellDate])

/-- The value-mode tail of the second variant's DRIP handler after both
prices and the dividend schedule are available. -/
def dripValueBody (amount ticker buyDate sellDate typeParam : String)
    (fxRateBuy fxRateSell buyPrice sellPrice : ℚ) (dividends : List dividendData) : JObj :=
  let initialShares := (parseAmount amount).1 * fxRateBuy / buyPrice
  let dripRes := calculateDRIP initialShares dividends buyPrice
  let totalShares := initialShares + dripRes.1
  [("message", .str "Backtest result (value buy/sell with DRIP)"),
   ("value", .num (parseAmount amount).1),
   ("currency", .str (parseAmount amount).2.1),
   ("ticker", .str ticker),
   ("buyDate", .str buyDate),
   ("sellDate", .str sellDate),
   ("buyPrice", .num buyPrice),
   ("sellPrice", .num sellPrice),
   ("initialShares", .num initialShares),
   ("reinvestedShares", .num dripRes.1),
   ("totalShares", .num totalShares),
   ("dividends", .divs dripRes.2),
   ("finalValueUSD", .num (totalShares * sellPrice)),
   ("finalValueInOriginalCurrency", .num (totalShares * sellPrice * fxRateSell)),
   ("fxRateBuy", .num fxRateBuy),
   ("fxRateSell", .num fxRateSell),
   ("drip", .bool true),
   ("type", .str typeParam)]

/-- The quantity-mode tail of the second variant's DRIP handler. -/
def dripQuantityBody (amount ticker buyDate sellDate typeParam : String)
    (buyPrice sellPrice : ℚ) (dividends : List dividendData) : JObj :=
  let dripRes := calculateDRIP (parseAmount amount).1 dividends buyPrice
  let totalShares := (parseAmount amount).1 + dripRes.1
  [("message", .str "Backtest result (quantity buy/sell with DRIP)"),
   ("quantity", .num (parseAmount amount).1),
   ("ticker", .str ticker),
   ("buyDate", .str buyDate),
   ("sellDate", .str sellDate),
   ("buyPrice", .num buyPrice),
   ("sellPrice", .num sellPrice),
   ("reinvestedShares", .num dripRes.1),
   ("totalShares", .num totalShares),
   ("dividends", .divs dripRes.2),
   ("finalValue", .num (totalShares * sellPrice)),
   ("drip", .bool true),
   ("type", .str typeParam)]

/-- `handleAmountBuySellDrip` of the second variant.  Unlike the other two
handlers it validates neither the parsed amount nor the type parameter:
it parses and immediately branches on value-vs-quantity mode, fetching
prices (and, value mode, FX rates) straight away. -/
def handleAmountBuySellDrip (co : Collab) (amount ticker buyDate sellDate typeParam : String) :
    HResult × List Fetch :=
  if (parseAmount amount).2.2 = true then
    match co.fx (parseAmount amount).2.1 "USD" buyDate with
    | .err e =>
      (.serverError [("error", .str "Failed to fetch FX rate for buy date"), ("details", .str e)],
       [.fx (parseAmount amount).2.1 "USD" buyDate])
    | .ok fxRateBuy =>
      match co.fx "USD" (parseAmount amount).2.1 sellDate with
      | .err e =>
        (.serverError [("error", .str "Failed to fetch FX rate for sell date"), ("details", .str e)],
         [.fx (parseAmount amount).2.1 "USD" buyDate, .fx "USD" (parseAmount amount).2.1 sellDate])
      | .ok fxRateSell =>
        match co.price ticker buyDate with
        | .err e =>
          (.serverError [("error", .str "Failed to fetch buy price"), ("details", .str e)],
           [.fx (parseAmount amount).2.1 "USD" buyDate, .fx "USD" (parseAmount amount).2.1 sellDate,
            .price ticker buyDate])
        | .ok buyPrice =>
          match co.price ticker sellDate with
          | .err e =>
            (.serverError [("error", .str "Failed to fetch sell price"), ("details", .str e)],
             [.fx (parseAmount amount).2.1 "USD" buyDate, .fx "USD" (parseAmount amount).2.1 sellDate,
              .price ticker buyDate, .price ticker sellDate])
          | .ok sellPrice =>
            match fetchStockDividendsAlphaVantage ticker buyDate sellDate with
            | .err e =>
              (.serverError [("error", .str "Failed to fetch dividends"), ("details", .str e)],
               [.fx (parseAmount amount).2.1 "USD" buyDate, .fx "USD" (parseAmount amount).2.1 sellDate,
                .price ticker buyDate, .price ticker sellDate, .div ticker buyDate sellDate])
            | .ok dividends =>
              (.ok (dripValueBody amount ticker buyDate sellDate typeParam
                      fxRateBuy fxRateSell buyPrice sellPrice dividends),
               [.fx (parseAmount amount).2.1 "USD" buyDate, .fx "USD" (parseAmount amount).2.1 sellDate,
                .price ticker buyDate, .price ticker sellDate, .div ticker buyDate sellDate])
  else
    match co.price ticker buyDate with
    | .err e =>
      (.serverError [("error", .str "Failed to fetch buy price"), ("details", .str e)],
       [.price ticker buyDate])
    | .ok buyPrice =>
      match co.price ticker sellDate with
      | .err e =>
        (.serverError [("error", .str "Failed to fetch sell price"), ("details", .str e)],
         [.price ticker buyDate, .price ticker sellDate])
      | .ok sellPrice =>
        match fetchStockDividendsAlphaVantage ticker buyDate sellDate with
        | .err e =>
          (.serverError [("error", .str "Failed to fetch dividends"), ("details", .str e)],
           [.price ticker buyDate, .price ticker sellDate, .div ticker buyDate sellDate])
        | .ok dividends =>
          (.ok (dripQuantityBody amount ticker buyDate sellDate typeParam
                  buyPrice sellPrice dividends),
           [.price ticker buyDate, .price ticker sellDate, .div ticker buyDate sellDate])

end PartOne

namespace MainGo

/-- `parseAmount` of `main.go`: returns `(parsedAmount, isValue, currency)`
or an error when no numeric substring is found.  `isValue` is exactly the
caller-supplied `hasOf` path marker — the extracted currency token plays
no part in it. -/
def parseAmount (amount : String) (hasOf : Bool) : Res (ℚ × Bool × String) :=
  match findNumList amount.data with
  | none => .err "No numeric value found in amount"
  | some numMatch => .ok (parseNumToken numMatch, hasOf, findCurrency amount)

/-- The value-mode 200 body of `main.go`'s buy-only handler. -/
def buyValueBody (ticker buyDate typeParam : String) (parsedAmount : ℚ) (currency : String)
    (closePrice fxRate : ℚ) : JObj :=
  [("message", .str "Backtest result (value buy only)"),
   ("value", .num parsedAmount),
   ("currency", .str currency),
   ("ticker", .str ticker),
   ("buyDate", .str buyDate),
   ("closePrice", .num closePrice),
   ("fxRate", .num fxRate),
   ("stockCurrency", .str "USD"),
   ("shares", .num (parsedAmount * fxRate / closePrice)),
   ("type", .str typeParam)]

/-- `handleAmountBuy` of `main.go`.  Type is validated first, then the
amount; for `stock` value mode the close price is fetched first and the
buy-date FX rate only when the currency token is non-empty and differs
from `"USD"` (otherwise the rate short-circuits to `1.0` with no fetch);
`crypto` requests are answered without any fetch. -/
def handleAmountBuy (co : Collab) (amount ticker buyDate typeParam : String) (hasOf : Bool) :
    HResult × List Fetch :=
  if typeParam ≠ "stock" ∧ typeParam ≠ "crypto" then
    (.clientError [("error", .str "Invalid type parameter: must be stock or crypto")], [])
  else
    match parseAmount amount hasOf with
    | .err _ => (.clientError [("error", .str "Invalid amount format")], [])
    | .ok pa =>
      if typeParam = "stock" ∧ pa.2.1 = true then
        match co.price ticker buyDate with
        | .err e =>
          (.serverError [("error", .str "Failed to fetch stock price"), ("details", .str e)],
           [.price ticker buyDate])
        | .ok closePrice =>
          if pa.2.2 ≠ "" ∧ pa.2.2 ≠ "USD" then
            match co.fx pa.2.2 "USD" buyDate with
            | .err e =>
              (.serverError [("error", .str "Failed to fetch FX rate"), ("details", .str e)],
               [.price ticker buyDate, .fx pa.2.2 "USD" buyDate])
            | .ok fxRate =>
              (.ok (buyValueBody ticker buyDate typeParam pa.1 pa.2.2 closePrice fxRate),
               [.price ticker buyDate, .fx pa.2.2 "USD" buyDate])
          else
            (.ok (buyValueBody ticker buyDate typeParam pa.1 pa.2.2 closePrice 1),
             [.price ticker buyDate])
      else if typeParam = "stock" ∧ pa.2.1 = false then
        match co.price ticker buyDate with
        | .err e =>
          (.serverError [("error", .str "Failed to fetch stock price"), ("details", .str e)],
           [.price ticker buyDate])
        | .ok closePrice =>
          (.ok [("message", .str "Backtest result (quantity buy only)"),
                ("quantity", .num pa.1),
                ("ticker", .str ticker),
                ("buyDate", .str buyDate),
                ("closePrice", .num closePrice),
                ("type", .str typeParam)],
           [.price ticker buyDate])
      else if pa.2.1 = true then
        (.ok [("message", .str "Backtest result (value buy only)"),
              ("value", .num pa.1),
              ("currency", .str pa.2.2),
              ("ticker", .str ticker),
              ("buyDate", .str buyDate),
              ("type", .str typeParam)], [])
      else
        (.ok [("message", .str "Backtest result (quantity buy only)"),
              ("quantity", .num pa.1),
              ("ticker", .str ticker),
              ("buyDate", .str buyDate),
              ("type", .str typeParam)], [])

/-- The value-mode 200 body of `main.go`'s buy/sell handler. -/
def buySellValueBody (ticker buyDate sellDate typeParam : String) (parsedAmount : ℚ)
    (currency : String) (buyPrice sellPrice fxRateBuy fxRateSell : ℚ) : JObj :=
  [("message", .str "Backtest result (value buy/sell)"),
   ("value", .num parsedAmount),
   ("currency", .str currency),
   ("ticker", .str ticker),
   ("buyDate", .str buyDate),
   ("sellDate", .str sellDate),
   ("buyPrice", .num buyPrice),
   ("sellPrice", .num sellPrice),
   ("fxRateBuy", .num fxRateBuy),
   ("fxRateSell", .num fxRateSell),
   ("stockCurrency", .str "USD"),
   ("shares", .num (parsedAmount * fxRateBuy / buyPrice)),
   ("finalValueInStockCurrency", .num (parsedAmount * fxRateBuy / buyPrice * sellPrice)),
   ("finalValueInOriginalCurrency",
     .num (parsedAmount * fxRateBuy / buyPrice * sellPrice * fxRateSell)),
   ("type", .str typeParam)]

/-- `handleAmountBuySell` of `main.go`.  In the `stock` branches both
close-price fetches are issued before either is checked; in value mode
the two FX fetches (buy-date currency → USD, sell-date USD → currency)
happen, both before checking, only when the currency token is non-empty
and not `"USD"`.  The quantity-mode 200 body carries both prices but no
derived final value.  `crypto` requests are answered without any fetch. -/
def handleAmountBuySell (co : Collab) (amount ticker buyDate sellDate typeParam : String)
    (hasOf : Bool) : HResult × List Fetch :=
  if typeParam ≠ "stock" ∧ typeParam ≠ "crypto" then
    (.clientError [("error", .str "Invalid type parameter: must be stock or crypto")], [])
  else
    match parseAmount amount hasOf with
    | .err _ => (.clientError [("error", .str "Invalid amount format")], [])
    | .ok pa =>
      if typeParam = "stock" ∧ pa.2.1 = true then
        match co.price ticker buyDate, co.price ticker sellDate with
        | .ok buyPrice, .ok sellPrice =>
          if pa.2.2 ≠ "" ∧ pa.2.2 ≠ "USD" then
            match co.fx pa.2.2 "USD" buyDate, co.fx "USD" pa.2.2 sellDate with
            | .ok fxRateBuy, .ok fxRateSell =>
              (.ok (buySellValueBody ticker buyDate sellDate typeParam pa.1 pa.2.2
                      buyPrice sellPrice fxRateBuy fxRateSell),
               [.price ticker buyDate, .price ticker sellDate,
                .fx pa.2.2 "USD" buyDate, .fx "USD" pa.2.2 sellDate])
            | r1, r2 =>
              (.serverError [("error", .str "Failed to fetch FX rate"),
                             ("details", .str ("buy: " ++ errText r1 ++ ", sell: " ++ errText r2))],
               [.price ticker buyDate, .price ticker sellDate,
                .fx pa.2.2 "USD" buyDate, .fx "USD" pa.2.2 sellDate])
          else
            (.ok (buySellValueBody ticker buyDate sellDate typeParam pa.1 pa.2.2
                    buyPrice sellPrice 1 1),
             [.price ticker buyDate, .price ticker sellDate])
        | r1, r2 =>
          (.serverError [("error", .str "Failed to fetch stock price"),
                         ("details", .str ("buy: " ++ errText r1 ++ ", sell: " ++ errText r2))],
           [.price ticker buyDate, .price ticker sellDate])
      else if typeParam = "stock" ∧ pa.2.1 = false then
        match co.price ticker buyDate, co.price ticker sellDate with
        | .ok buyPrice, .ok sellPrice =>
          (.ok [("message", .str "Backtest result (quantity buy/sell)"),
                ("quantity", .num pa.1),
                ("ticker", .str ticker),
                ("buyDate", .str buyDate),
                ("sellDate", .str sellDate),
                ("buyPrice", .num buyPrice),
                ("sellPrice", .num sellPrice),
                ("type", .str typeParam)],
           [.price ticker buyDate, .price ticker sellDate])
        | r1, r2 =>
          (.serverError [("error", .str "Failed to fetch stock price"),
                         ("details", .str ("buy: " ++ errText r1 ++ ", sell: " ++ errText r2))],
           [.price ticker buyDate, .price ticker sellDate])
      else if pa.2.1 = true then
        (.ok [("message", .str "Backtest result (value buy/sell)"),
              ("value", .num pa.1),
              ("currency", .str pa.2.2),
              ("ticker", .str ticker),
              ("buyDate", .str buyDate),
              ("sellDate", .str sellDate),
              ("type", .str typeParam)], [])
      else
        (.ok [("message", .str "Backtest result (quantity buy/sell)"),
              ("quantity", .num pa.1),
              ("ticker", .str ticker),
              ("buyDate", .str buyDate),
              ("sellDate", .str sellDate),
              ("type", .str typeParam)], [])

/-- `handleAmountBuySellDrip` of `main.go`: a stub.  It validates the type,
then the amount, and answers a mode-tagged 200 body with no fetch and no
DRIP arithmetic at all. -/
def handleAmountBuySellDrip (_co : Collab) (amount ticker buyDate sellDate typeParam : String)
    (hasOf : Bool) : HResult × List Fetch :=
  if typeParam ≠ "stock" ∧ typeParam ≠ "crypto" then
    (.clientError [("error", .str "Invalid type parameter: must be stock or crypto")], [])
  else
    match parseAmount amount hasOf with
    | .err _ => (.clientError [("error", .str "Invalid amount format")], [])
    | .ok pa =>
      if pa.2.1 = true then
        (.ok [("message", .str "Backtest result (value buy/sell with DRIP)"),
              ("value", .num pa.1),
              ("currency", .str pa.2.2),
              ("ticker", .str ticker),
              ("buyDate", .str buyDate),
              ("sellDate", .str sellDate),
              ("drip", .bool true),
              ("type", .str typeParam)], [])
      else
        (.ok [("message", .str "Backtest result (quantity buy/sell with DRIP)"),
              ("quantity", .num pa.1),
              ("ticker", .str ticker),
              ("buyDate", .str buyDate),
              ("sellDate", .str sellDate),
              ("drip", .bool true),
              ("type", .str typeParam)], [])

end MainGo

/-- A collaborator whose every fetch succeeds: close price 10, FX rate 2. -/
def okCollab : Collab := ⟨fun _ _ => .ok 10, fun _ _ _ => .ok 2⟩

/-- A collaborator whose FX lookups all fail while prices succeed. -/
def fxFailCollab : Collab := ⟨fun _ _ => .ok 10, fun _ _ _ => .err "fx down"⟩

/-- A collaborator reporting a close price of `0` on every date. -/
def zeroPriceCollab : Collab := ⟨fun _ _ => .ok 0, fun _ _ _ => .ok 1⟩

/-- A collaborator with the close prices of the spec's buy/sell scenario:
200.50 on 2025-07-17, 211.18 on any other date; FX rate 1. -/
def pricesCollab : Collab :=
  ⟨fun _ d => if d = "2025-07-17" then .ok (401 / 2) else .ok (10559 / 50), fun _ _ _ => .ok 1⟩

/-- **C1** — The claim asserts compounding DRIP: each event's cash equals
the share count held at that point (initial plus previously reinvested
shares) times the per-share amount, so two equal-amount events give
strictly increasing cash once the first reinvested a positive number of
shares.  Evaluating `calculateDRIP` at 100 initial shares, two dividends
of 0.24 per share and reinvestment price 10 shows the code pays both
events on the initial 100 shares: cash 24 and 24 (equal, not increasing),
even though the first event reinvested 24/10 = 12/5 > 0 shares; the
accumulated `totalReinvestedShares` never re-enters the paying base.
Compounding would pay the second event on 102.4 shares, i.e. 24.576. -/
theorem calculateDRIP_pays_on_initial_shares_only :
    calculateDRIP 100 [⟨"2025-03-15", 6 / 25⟩, ⟨"2025-06-15", 6 / 25⟩] 10 =
      (24 / 5, [⟨"2025-03-15", 24⟩, ⟨"2025-06-15", 24⟩]) := by
  norm_num [calculateDRIP, dripLoop]

/-- **C2 (counterexample)** — `main.go`'s `parseAmount` on `"1000EUR"` with
the path marker unset returns `isValue = false` even though the currency
token `"EUR"` was found and is returned: the parsed result is not marked
monetary despite a present currency indicator, so currency-token presence
is not authoritative there and the absent path marker overrides it. -/
theorem parseAmount_path_marker_overrides_currency :
    MainGo.parseAmount "1000EUR" false = .ok (1000, false, "EUR") := by
  decide

/-- **C2 (amended)** — Each variant consults a single signal: the second
variant's `parseAmount` marks the result monetary exactly when the
currency token it returns is non-empty, never consulting the path marker,
while `main.go`'s `parseAmount` copies the path marker into `isValue`
regardless of any currency token. -/
theorem parseAmount_value_flag_per_variant (s : String) (b : Bool) :
    (PartOne.parseAmount s).2.2 = ((PartOne.parseAmount s).2.1 != "") ∧
    (∀ q v c, MainGo.parseAmount s b = .ok (q, v, c) → v = b) := by
  constructor
  · unfold PartOne.parseAmount
    cases findNumList s.data <;> simp
  · intro q v c h
    unfold MainGo.parseAmount at h
    cases hm : findNumList s.data <;> rw [hm] at h <;> simp_all

/-- Witness for the amended C2 theorem at the concrete input `"1000EUR"`
with the path marker set. -/
theorem parseAmount_value_flag_per_variant_witness :
    (PartOne.parseAmount "1000EUR").2.2 = ((PartOne.parseAmount "1000EUR").2.1 != "") ∧
    true = true :=
  ⟨(parseAmount_value_flag_per_variant "1000EUR" true).1,
   (parseAmount_value_flag_per_variant "1000EUR" true).2 1000 true "EUR" (by decide)⟩

/-- **C9** — `"1000,50"` parses to magnitude 1000 in both variants: the
numeric regex matches the leftmost maximal run `"1000"`, the comma stops
the match and is never treated as a decimal separator. -/
theorem parseAmount_comma_is_noop :
    findNumList "1000,50".data = some ['1', '0', '0', '0'] ∧
    PartOne.parseAmount "1000,50" = (1000, "", false) ∧
    MainGo.parseAmount "1000,50" false = .ok (1000, false, "") ∧
    MainGo.parseAmount "1000,50" true = .ok (1000, true, "") := by
  decide

/-- **C3 (counterexample)** — Zero or negative magnitudes are not uniformly
rejected: the second variant's buy-only handler accepts `"-5"` (its check
is `parsedAmount == 0`, which −5 passes), its DRIP handler accepts even
`"0"` (it performs no amount check at all), and `main.go`'s buy-only
handler accepts `"0"` (it only rejects a missing numeric substring).  All
three produce successful (HTTP 200) results. -/
theorem negative_and_drip_amounts_accepted :
    (PartOne.handleAmountBuy okCollab "-5" "AAPL" "2025-07-18" "stock").1.isOk = true ∧
    (PartOne.handleAmountBuySellDrip okCollab "0" "AAPL" "2025-01-01" "2025-02-01"
      "stock").1.isOk = true ∧
    (MainGo.handleAmountBuy okCollab "0" "AAPL" "2025-07-18" "stock" false).1.isOk = true := by
  decide

/-- **C3 (amended)** — Only an amount parsing to magnitude exactly `0` is
rejected with the InvalidAmount client error, and only by the second
variant's buy-only and buy/sell handlers, which do so before any fetch;
negative magnitudes are not rejected anywhere, the second variant's DRIP
handler performs no amount check, and `main.go`'s handlers reject only
amounts with no numeric substring. -/
theorem zero_amount_rejected (co : Collab) (amount ticker buyDate sellDate typeParam : String)
    (h : (PartOne.parseAmount amount).1 = 0) :
    PartOne.handleAmountBuy co amount ticker buyDate typeParam =
      (.clientError [("error", .str "Invalid amount format")], []) ∧
    PartOne.handleAmountBuySell co amount ticker buyDate sellDate typeParam =
      (.clientError [("error", .str "Invalid amount format")], []) := by
  constructor
  · simp [PartOne.handleAmountBuy, h]
  · simp [PartOne.handleAmountBuySell, h]

/-- Witness for the amended C3 theorem at the concrete amount `"0"`. -/
theorem zero_amount_rejected_witness :
    PartOne.handleAmountBuy okCollab "0" "AAPL" "2025-07-18" "stock" =
      (.clientError [("error", .str "Invalid amount format")], []) ∧
    PartOne.handleAmountBuySell okCollab "0" "AAPL" "2025-07-18" "2025-07-19" "stock" =
      (.clientError [("error", .str "Invalid amount format")], []) :=
  zero_amount_rejected okCollab "0" "AAPL" "2025-07-18" "2025-07-19" "stock" (by decide)

/-- **C4 (counterexample)** — The second variant's buy/sell-with-DRIP
handler performs no type validation at all: with `type=banana` it
answers HTTP 200 after a non-empty sequence of external fetches, instead
of rejecting with InvalidType before any fetch. -/
theorem drip_handler_skips_type_check :
    (PartOne.handleAmountBuySellDrip okCollab "10" "AAPL" "2025-01-01" "2025-02-01"
      "banana").1.isOk = true ∧
    (PartOne.handleAmountBuySellDrip okCollab "10" "AAPL" "2025-01-01" "2025-02-01"
      "banana").2 ≠ [] := by
  decide

/-- **C4 (amended)** — An unsupported type parameter is rejected before any
fetch by the buy-only and buy/sell handlers of both variants (in the
second variant a zero-parsing amount is reported as InvalidAmount first,
still with no fetch) and by `main.go`'s DRIP handler; the second
variant's DRIP handler is the exception and performs no type check. -/
theorem invalid_type_rejected_before_fetch (co : Collab)
    (amount ticker buyDate sellDate typeParam : String) (b : Bool)
    (h1 : typeParam ≠ "stock") (h2 : typeParam ≠ "crypto") :
    ((PartOne.handleAmountBuy co amount ticker buyDate typeParam).1.isClientError = true ∧
     (PartOne.handleAmountBuy co amount ticker buyDate typeParam).2 = []) ∧
    ((PartOne.handleAmountBuySell co amount ticker buyDate sellDate typeParam).1.isClientError
        = true ∧
     (PartOne.handleAmountBuySell co amount ticker buyDate sellDate typeParam).2 = []) ∧
    MainGo.handleAmountBuy co amount ticker buyDate typeParam b =
      (.clientError [("error", .str "Invalid type parameter: must be stock or crypto")], []) ∧
    MainGo.handleAmountBuySell co amount ticker buyDate sellDate typeParam b =
      (.clientError [("error", .str "Invalid type parameter: must be stock or crypto")], []) ∧
    MainGo.handleAmountBuySellDrip co amount ticker buyDate sellDate typeParam b =
      (.clientError [("error", .str "Invalid type parameter: must be stock or crypto")], []) := by
  refine ⟨?_, ?_, ?_, ?_, ?_⟩
  · by_cases hz : (PartOne.parseAmount amount).1 = 0 <;>
      simp [PartOne.handleAmountBuy, hz, h1, h2, HResult.isClientError]
  · by_cases hz : (PartOne.parseAmount amount).1 = 0 <;>
      simp [PartOne.handleAmountBuySell, hz, h1, h2, HResult.isClientError]
  · simp [MainGo.handleAmountBuy, h1, h2]
  · simp [MainGo.handleAmountBuySell, h1, h2]
  · simp [MainGo.handleAmountBuySellDrip, h1, h2]

/-- Witness for the amended C4 theorem at the concrete type `"banana"`. -/
theorem invalid_type_rejected_before_fetch_witness :
    ((PartOne.handleAmountBuy okCollab "10" "AAPL" "2025-07-18" "banana").1.isClientError
        = true ∧
     (PartOne.handleAmountBuy okCollab "10" "AAPL" "2025-07-18" "banana").2 = []) ∧
    ((PartOne.handleAmountBuySell okCollab "10" "AAPL" "2025-07-18" "2025-07-19"
        "banana").1.isClientError = true ∧
     (PartOne.handleAmountBuySell okCollab "10" "AAPL" "2025-07-18" "2025-07-19"
        "banana").2 = []) ∧
    MainGo.handleAmountBuy okCollab "10" "AAPL" "2025-07-18" "banana" false =
      (.clientError [("error", .str "Invalid type parameter: must be stock or crypto")], []) ∧
    MainGo.handleAmountBuySell okCollab "10" "AAPL" "2025-07-18" "2025-07-19" "banana" false =
      (.clientError [("error", .str "Invalid type parameter: must be stock or crypto")], []) ∧
    MainGo.handleAmountBuySellDrip okCollab "10" "AAPL" "2025-07-18" "2025-07-19" "banana"
        false =
      (.clientError [("error", .str "Invalid type parameter: must be stock or crypto")], []) :=
  invalid_type_rejected_before_fetch okCollab "10" "AAPL" "2025-07-18" "2025-07-19" "banana"
    false (by decide) (by decide)

/-- **C5 (counterexample)** — The second variant's buy/sell-with-DRIP
handler does not reject a malformed amount: on `"abc"` (no numeric
substring) it proceeds to a non-empty sequence of external fetches and
answers HTTP 200, instead of rejecting with InvalidAmount before any
fetch. -/
theorem drip_handler_skips_amount_check :
    (PartOne.handleAmountBuySellDrip okCollab "abc" "AAPL" "2025-01-01" "2025-02-01"
      "stock").1.isOk = true ∧
    (PartOne.handleAmountBuySellDrip okCollab "abc" "AAPL" "2025-01-01" "2025-02-01"
      "stock").2 ≠ [] := by
  decide

/-- **C5 (amended)** — An amount with no extractable numeric substring is
rejected with the InvalidAmount client error before any fetch by the
buy-only and buy/sell handlers of both variants and by `main.go`'s DRIP
handler (for a supported type); the second variant's DRIP handler is the
exception and performs no amount check. -/
theorem malformed_amount_rejected_before_fetch (co : Collab)
    (amount ticker buyDate sellDate typeParam : String) (b : Bool)
    (hn : findNumList amount.data = none)
    (ht : typeParam = "stock" ∨ typeParam = "crypto") :
    PartOne.handleAmountBuy co amount ticker buyDate typeParam =
      (.clientError [("error", .str "Invalid amount format")], []) ∧
    PartOne.handleAmountBuySell co amount ticker buyDate sellDate typeParam =
      (.clientError [("error", .str "Invalid amount format")], []) ∧
    MainGo.handleAmountBuy co amount ticker buyDate typeParam b =
      (.clientError [("error", .str "Invalid amount format")], []) ∧
    MainGo.handleAmountBuySell co amount ticker buyDate sellDate typeParam b =
      (.clientError [("error", .str "Invalid amount format")], []) ∧
    MainGo.handleAmountBuySellDrip co amount ticker buyDate sellDate typeParam b =
      (.clientError [("error", .str "Invalid amount format")], []) := by
  have hz : (PartOne.parseAmount amount).1 = 0 := by
    simp [PartOne.parseAmount, hn]
  refine ⟨?_, ?_, ?_, ?_, ?_⟩
  · simp [PartOne.handleAmountBuy, hz]
  · simp [PartOne.handleAmountBuySell, hz]
  · rcases ht with h | h <;> subst h <;>
      simp [MainGo.handleAmountBuy, MainGo.parseAmount, hn]
  · rcases ht with h | h <;> subst h <;>
      simp [MainGo.handleAmountBuySell, MainGo.parseAmount, hn]
  · rcases ht with h | h <;> subst h <;>
      simp [MainGo.handleAmountBuySellDrip, MainGo.parseAmount, hn]

/-- Witness for the amended C5 theorem at the concrete amount `"abc"`. -/
theorem malformed_amount_rejected_before_fetch_witness :
    PartOne.handleAmountBuy okCollab "abc" "AAPL" "2025-07-18" "stock" =
      (.clientError [("error", .str "Invalid amount format")], []) ∧
    PartOne.handleAmountBuySell okCollab "abc" "AAPL" "2025-07-18" "2025-07-19" "stock" =
      (.clientError [("error", .str "Invalid amount format")], []) ∧
    MainGo.handleAmountBuy okCollab "abc" "AAPL" "2025-07-18" "stock" false =
      (.clientError [("error", .str "Invalid amount format")], []) ∧
    MainGo.handleAmountBuySell okCollab "abc" "AAPL" "2025-07-18" "2025-07-19" "stock" false =
      (.clientError [("error", .str "Invalid amount format")], []) ∧
    MainGo.handleAmountBuySellDrip okCollab "abc" "AAPL" "2025-07-18" "2025-07-19" "stock"
        false =
      (.clientError [("error", .str "Invalid amount format")], []) :=
  malformed_amount_rejected_before_fetch okCollab "abc" "AAPL" "2025-07-18" "2025-07-19"
    "stock" false (by decide) (Or.inl rfl)

/-- **C6 (counterexample)** — The second variant's value-mode handler
consults the historical-rate collaborator even for USD → USD: with every
FX lookup failing, a `"100USD"` buy request aborts with the FX upstream
error and its fetch trace is exactly one USD → USD FX lookup, instead of
short-circuiting to rate 1.0 without any FX fetch. -/
theorem fx_consulted_for_usd_to_usd :
    PartOne.handleAmountBuy fxFailCollab "100USD" "AAPL" "2025-07-18" "stock" =
      (.serverError [("error", .str "Failed to fetch FX rate"), ("details", .str "fx down")],
       [.fx "USD" "USD" "2025-07-18"]) := by
  decide

/-- **C6 (amended)** — Only `main.go`'s buy handler short-circuits: when
the detected currency is `"USD"` or empty, it performs no FX fetch and
any successful value-mode body carries `fxRate = 1.0`; the second
variant's value-mode handler always consults the FX collaborator first,
its leading fetch being currency → USD even when that currency is USD. -/
theorem fx_short_circuit_per_variant (co : Collab) (amount ticker buyDate : String) :
    ((findCurrency amount = "USD" ∨ findCurrency amount = "") →
      (∀ f t d, Fetch.fx f t d ∉ (MainGo.handleAmountBuy co amount ticker buyDate "stock"
          true).2) ∧
      ((MainGo.handleAmountBuy co amount ticker buyDate "stock" true).1.isOk = true →
        ((MainGo.handleAmountBuy co amount ticker buyDate "stock" true).1.body).lookup "fxRate"
          = some (.num 1))) ∧
    ((PartOne.parseAmount amount).1 ≠ 0 → (PartOne.parseAmount amount).2.2 = true →
      ((PartOne.handleAmountBuy co amount ticker buyDate "stock").2).head? =
        some (.fx (PartOne.parseAmount amount).2.1 "USD" buyDate)) := by
  constructor
  · intro h
    have hc : ¬(findCurrency amount ≠ "" ∧ findCurrency amount ≠ "USD") := by
      rcases h with h | h <;> simp [h]
    unfold MainGo.handleAmountBuy MainGo.parseAmount
    cases hm : findNumList amount.data with
    | none => simp [HResult.isOk]
    | some m =>
      cases hp : co.price ticker buyDate with
      | err e => simp [hp, HResult.isOk]
      | ok p => simp [hp, hc, MainGo.buyValueBody, List.lookup, HResult.isOk, HResult.body]
  · intro h0 hv
    unfold PartOne.handleAmountBuy
    rw [if_neg h0, if_neg (by simp), if_pos hv]
    cases co.fx (PartOne.parseAmount amount).2.1 "USD" buyDate with
    | err e => simp
    | ok r =>
      cases co.price ticker buyDate with
      | err e => simp
      | ok p => simp

/-- Witness for the amended C6 theorem at the concrete amount `"100USD"`,
whose detected currency is `"USD"`. -/
theorem fx_short_circuit_per_variant_witness :
    Fetch.fx "USD" "USD" "2025-07-18" ∉
      (MainGo.handleAmountBuy okCollab "100USD" "AAPL" "2025-07-18" "stock" true).2 ∧
    ((PartOne.handleAmountBuy okCollab "100USD" "AAPL" "2025-07-18" "stock").2).head? =
      some (.fx (PartOne.parseAmount "100USD").2.1 "USD" "2025-07-18") :=
  ⟨((fx_short_circuit_per_variant okCollab "100USD" "AAPL" "2025-07-18").1
      (Or.inl (by decide))).1 "USD" "USD" "2025-07-18",
   (fx_short_circuit_per_variant okCollab "100USD" "AAPL" "2025-07-18").2
      (by decide) (by decide)⟩

/-- **C7 (counterexample)** — A close price of `0` delivered by the pricing
collaborator is not surfaced as a division-by-zero-class error: the
second variant's value-mode buy handler still answers HTTP 200, silently
dividing the converted value by the non-positive price. -/
theorem zero_close_price_accepted :
    (PartOne.handleAmountBuy zeroPriceCollab "100USD" "AAPL" "2025-07-18" "stock").1.isOk
      = true := by
  decide

/-- **C7 (amended)** — Neither variant checks the close price before
dividing: whenever the FX and price fetches succeed, the second
variant's value-mode buy handler answers HTTP 200 for every returned
close price `p`, including `p ≤ 0`; the value is divided by `p`
unconditionally and no DivisionByZero-class error path exists. -/
theorem shares_division_unchecked (co : Collab) (amount ticker buyDate : String) (r p : ℚ)
    (h0 : (PartOne.parseAmount amount).1 ≠ 0)
    (hv : (PartOne.parseAmount amount).2.2 = true)
    (hfx : co.fx (PartOne.parseAmount amount).2.1 "USD" buyDate = .ok r)
    (hp : co.price ticker buyDate = .ok p) :
    (PartOne.handleAmountBuy co amount ticker buyDate "stock").1.isOk = true := by
  unfold PartOne.handleAmountBuy
  rw [if_neg h0, if_neg (by simp), if_pos hv, hfx, hp]
  rfl

/-- Witness for the amended C7 theorem at the concrete close price `0`. -/
theorem shares_division_unchecked_witness :
    (0 : ℚ) ≤ 0 ∧
    (PartOne.handleAmountBuy zeroPriceCollab "100USD" "AAPL" "2025-07-18" "stock").1.isOk
      = true :=
  ⟨le_refl 0,
   shares_division_unchecked zeroPriceCollab "100USD" "AAPL" "2025-07-18" 1 0
     (by decide) (by decide) (by decide) (by decide)⟩

/-- **C8 (counterexample)** — `main.go`'s quantity-mode buy/sell handler
answers HTTP 200 with a body that has no `finalValue` field at all: the
derived final value the claim requires is absent from that variant. -/
theorem quantity_buysell_missing_final_value :
    (MainGo.handleAmountBuySell pricesCollab "10" "AAPL" "2025-07-17" "2025-07-18" "stock"
      false).1.isOk = true ∧
    ((MainGo.handleAmountBuySell pricesCollab "10" "AAPL" "2025-07-17" "2025-07-18" "stock"
      false).1.body).lookup "finalValue" = none := by
  decide

/-- **C8 (amended)** — For a successful quantity-mode buy/sell request the
second variant's response carries both close prices and
`finalValue = quantity * sellPrice`; `main.go`'s response carries both
prices but no derived final value field. -/
theorem quantity_buysell_final_value (co : Collab) (amount ticker buyDate sellDate : String)
    (q p1 p2 : ℚ)
    (hpa : PartOne.parseAmount amount = (q, "", false)) (hq : q ≠ 0)
    (hm : MainGo.parseAmount amount false = .ok (q, false, ""))
    (hb : co.price ticker buyDate = .ok p1) (hs : co.price ticker sellDate = .ok p2) :
    ((PartOne.handleAmountBuySell co amount ticker buyDate sellDate "stock").1.isOk = true ∧
     ((PartOne.handleAmountBuySell co amount ticker buyDate sellDate
        "stock").1.body).lookup "buyPrice" = some (.num p1) ∧
     ((PartOne.handleAmountBuySell co amount ticker buyDate sellDate
        "stock").1.body).lookup "sellPrice" = some (.num p2) ∧
     ((PartOne.handleAmountBuySell co amount ticker buyDate sellDate
        "stock").1.body).lookup "finalValue" = some (.num (q * p2))) ∧
    ((MainGo.handleAmountBuySell co amount ticker buyDate sellDate "stock" false).1.isOk
        = true ∧
     ((MainGo.handleAmountBuySell co amount ticker buyDate sellDate "stock"
        false).1.body).lookup "buyPrice" = some (.num p1) ∧
     ((MainGo.handleAmountBuySell co amount ticker buyDate sellDate "stock"
        false).1.body).lookup "sellPrice" = some (.num p2) ∧
     ((MainGo.handleAmountBuySell co amount ticker buyDate sellDate "stock"
        false).1.body).lookup "finalValue" = none) := by
  constructor
  · simp [PartOne.handleAmountBuySell, hpa, hq, hb, hs, List.lookup, HResult.isOk,
      HResult.body]
  · simp [MainGo.handleAmountBuySell, hm, hb, hs, List.lookup, HResult.isOk, HResult.body]

/-- Witness for the amended C8 theorem at the spec's end-to-end scenario:
quantity 10 bought at 200.50 and sold at 211.18, whose derived final
value is `10 * 211.18 = 2111.80` — present in the second variant's body,
absent from `main.go`'s. -/
theorem quantity_buysell_final_value_witness :
    ((PartOne.handleAmountBuySell pricesCollab "10" "AAPL" "2025-07-17" "2025-07-18"
       "stock").1.body).lookup "finalValue" = some (.num (10 * (10559 / 50))) ∧
    ((MainGo.handleAmountBuySell pricesCollab "10" "AAPL" "2025-07-17" "2025-07-18" "stock"
       false).1.body).lookup "finalValue" = none :=
  ⟨(quantity_buysell_final_value pricesCollab "10" "AAPL" "2025-07-17" "2025-07-18"
      10 (401 / 2) (10559 / 50) (by decide) (by norm_num) (by decide)
      (by simp [pricesCollab]) (by simp [pricesCollab])).1.2.2.2,
   (quantity_buysell_final_value pricesCollab "10" "AAPL" "2025-07-17" "2025-07-18"
      10 (401 / 2) (10559 / 50) (by decide) (by norm_num) (by decide)
      (by simp [pricesCollab]) (by simp [pricesCollab])).2.2.2.2⟩

/-- Membership in the list built by folding `divStep` over candidate dates:
an element is either carried over from the accumulator or is `⟨d, 0.24⟩`
for a candidate date `d` that parses into the inclusive range. -/
theorem mem_foldl_divStep (start endD : ℕ) (x : dividendData) :
    ∀ (ds : List String) (acc : List dividendData),
      x ∈ ds.foldl (divStep start endD) acc ↔
        x ∈ acc ∨ ∃ d, d ∈ ds ∧
          (∃ n, parseDate d = some n ∧ start ≤ n ∧ n ≤ endD) ∧ x = ⟨d, 6 / 25⟩ := by
  intro ds
  induction ds with
  | nil => intro acc; simp
  | cons d ds ih =>
    intro acc
    rw [List.foldl_cons, ih]
    cases hp : parseDate d with
    | none =>
      simp only [divStep, hp]
      constructor
      · rintro (hx | hx)
        · exact Or.inl hx
        · rcases hx with ⟨d2, hd2, hn, hx⟩
          exact Or.inr ⟨d2, List.mem_cons_of_mem d hd2, hn, hx⟩
      · rintro (hx | ⟨d2, hd2, hn, hx⟩)
        · exact Or.inl hx
        · rcases List.mem_cons.1 hd2 with h | h
          · subst h
            rcases hn with ⟨n, hn1, _⟩
            rw [hp] at hn1
            cases hn1
          · exact Or.inr ⟨d2, h, hn, hx⟩
    | some n =>
      simp only [divStep, hp]
      by_cases hin : start ≤ n ∧ n ≤ endD
      · rw [if_pos hin]
        constructor
        · rintro (hx | hx)
          · rcases List.mem_append.1 hx with h | h
            · exact Or.inl h
            · rcases List.mem_singleton.1 h with h
              exact Or.inr ⟨d, List.mem_cons_self d ds, ⟨n, hp, hin⟩, h⟩
          · rcases hx with ⟨d2, hd2, hn, hx⟩
            exact Or.inr ⟨d2, List.mem_cons_of_mem d hd2, hn, hx⟩
        · rintro (hx | ⟨d2, hd2, hn, hx⟩)
          · exact Or.inl (List.mem_append.2 (Or.inl hx))
          · rcases List.mem_cons.1 hd2 with h | h
            · subst h
              subst hx
              exact Or.inl (List.mem_append.2 (Or.inr (List.mem_singleton.2 rfl)))
            · exact Or.inr ⟨d2, h, hn, hx⟩
      · rw [if_neg hin]
        constructor
        · rintro (hx | hx)
          · exact Or.inl hx
          · rcases hx with ⟨d2, hd2, hn, hx⟩
            exact Or.inr ⟨d2, List.mem_cons_of_mem d hd2, hn, hx⟩
        · rintro (hx | ⟨d2, hd2, hn, hx⟩)
          · exact Or.inl hx
          · rcases List.mem_cons.1 hd2 with h | h
            · subst h
              rcases hn with ⟨n2, hn1, hn2⟩
              rw [hp] at hn1
              cases hn1
              exact absurd hn2 hin
            · exact Or.inr ⟨d2, h, hn, hx⟩

/-- **C10** — The dividend schedule is simulated, not fetched: whenever the
range endpoints parse, every ticker other than `"AAPL"` gets an empty
schedule, and the `"AAPL"` schedule contains exactly the elements
`⟨d, 0.24⟩` for the four fixed dates `d` whose parsed value lies in the
inclusive range `[startDate, endDate]`. -/
theorem dividend_schedule_simulated (ticker startDate endDate : String) (s e : ℕ)
    (hs : parseDate startDate = some s) (he : parseDate endDate = some e) :
    (ticker ≠ "AAPL" → fetchStockDividendsAlphaVantage ticker startDate endDate = .ok []) ∧
    (∀ l, fetchStockDividendsAlphaVantage "AAPL" startDate endDate = .ok l →
      ∀ x, x ∈ l ↔ x.date ∈ dividendDates ∧ x.amount = 6 / 25 ∧
        ∃ n, parseDate x.date = some n ∧ s ≤ n ∧ n ≤ e) := by
  constructor
  · intro h
    simp only [fetchStockDividendsAlphaVantage, hs, he]
    rw [if_neg h]
  · intro l hl x
    simp only [fetchStockDividendsAlphaVantage, hs, he, if_true] at hl
    cases hl
    rw [mem_foldl_divStep]
    constructor
    · rintro (hx | ⟨d, hd, ⟨n, hn1, hn2, hn3⟩, hx⟩)
      · cases hx
      · subst hx
        exact ⟨hd, rfl, n, hn1, hn2, hn3⟩
    · rintro ⟨hd, ha, n, hn1, hn2, hn3⟩
      refine Or.inr ⟨x.date, hd, ⟨n, hn1, hn2, hn3⟩, ?_⟩
      cases x
      simp_all

/-- Witness for C10: over the concrete range 2025-01-01 .. 2025-07-01 the
MSFT schedule is empty. -/
theorem dividend_schedule_simulated_witness :
    fetchStockDividendsAlphaVantage "MSFT" "2025-01-01" "2025-07-01" = .ok [] :=
  (dividend_schedule_simulated "MSFT" "2025-01-01" "2025-07-01" 20250101 20250701
    (by decide) (by decide)).1 (by decide)

end IfYouBought
